import Mathlib

/-!
Shallow embedding of two Ansible modules:

  src/clustering/consul_kv.py         (Consul key/value store module)
  src/cloud/amazon/ec2_vpc_endpoint.py (AWS VPC endpoint create/delete/wait)

The state of the external backends (the Consul agent KV store, the AWS EC2
API) is modelled explicitly and threaded through each embedded function.
A module-level fail_json call is modelled as an error value; exit_json is
modelled as a normal result value.  Python exceptions that escape a function
(NameError on an undefined variable, botocore ClientError) are modelled as
error values carrying the message the interpreter or SDK would produce.
-/

/-- One Consul KV record as returned by the agent for a key (the fields the
module reads: the stored value and the ModifyIndex used for check-and-set;
Flags is carried opaquely). -/
structure KVEntry where
  Value : String
  ModifyIndex : Nat
  Flags : Nat
deriving DecidableEq, Repr

/-- State of the Consul KV backend: the bound keys and the global write index
(each successful write bumps it and stamps it on the written entry). -/
structure ConsulState where
  store : List (String × KVEntry)
  index : Nat
deriving DecidableEq, Repr

/-- The entry currently bound to a key, if any. -/
def ConsulState.lookup (st : ConsulState) (key : String) : Option KVEntry :=
  (st.store.find? (fun kv => kv.1 == key)).map (fun kv => kv.2)

/-- ModifyIndex used by Consul for check-and-set comparisons: a missing key
counts as index 0 (so cas=0 means "put only if the key does not exist"). -/
def modifyIndexOf (st : ConsulState) (key : String) : Nat :=
  match st.lookup key with
  | some e => e.ModifyIndex
  | none => 0

/-- Backend model of consul_api.kv.put: unconditional when cas is absent;
with cas=n the write succeeds only when n equals the ModifyIndex of the key
(0 for a missing key).  A successful write bumps the global index and stamps
it on the entry; a failed conditional write changes nothing and returns
false, which the python client reports as the return value of put. -/
def kv_put (st : ConsulState) (key value : String) (cas : Option Nat)
    (flags : Option Nat) : Bool × ConsulState :=
  let casOk : Bool :=
    match cas with
    | none => true
    | some n => decide (modifyIndexOf st key = n)
  if casOk then
    let idx := st.index + 1
    let entry : KVEntry := { Value := value, ModifyIndex := idx, Flags := flags.getD 0 }
    let newStore :=
      if st.store.any (fun kv => kv.1 == key) then
        st.store.map (fun kv => if kv.1 == key then (key, entry) else kv)
      else
        st.store ++ [(key, entry)]
    (true, { store := newStore, index := idx })
  else
    (false, st)

/-- Backend model of consul_api.kv.delete: removes the key, or with
recurse=true every key having the given key as a prefix. -/
def kv_delete (st : ConsulState) (key : String) (recurse : Bool) : ConsulState :=
  let newStore :=
    if recurse then
      st.store.filter (fun kv => !(String.isPrefixOf key kv.1))
    else
      st.store.filter (fun kv => kv.1 != key)
  { store := newStore, index := st.index + 1 }

/-- The data part of a consul_api.kv.get response: a single record, or with
recurse=true the list of records under the prefix. -/
inductive GotValue where
  | single (e : KVEntry)
  | multi (es : List (String × KVEntry))
deriving DecidableEq, Repr

/-- Backend model of consul_api.kv.get: returns the global index together
with the record at the key (recurse=false), or the records under the prefix
(recurse=true, None when there are none). -/
def consul_get (st : ConsulState) (key : String) (recurse : Bool) :
    Nat × Option GotValue :=
  if recurse then
    let es := st.store.filter (fun kv => String.isPrefixOf key kv.1)
    (st.index, if es.isEmpty then none else some (GotValue.multi es))
  else
    (st.index, (st.lookup key).map GotValue.single)

/-- The module parameters read by the consul_kv module functions (already
validated and typed by the surrounding AnsibleModule layer), plus the
check_mode flag of the module object. -/
structure ConsulParams where
  key : String
  value : String
  cas : Option Nat
  flags : Option Nat
  session : Option String
  retrieve : Bool
  recurse : Bool
  check_mode : Bool
deriving DecidableEq, Repr

/-- Python truthiness of the expression (override or module.params.get(x)):
the override is used only when it is a non-empty string. -/
def pyOr (override : Option String) (dflt : String) : String :=
  match override with
  | some s => if s = "" then dflt else s
  | none => dflt

/-- The expression (not existing or (existing and existing[Value] != value))
of add_value, as a boolean on the optional existing record. -/
def pyChanged (existing : Option KVEntry) (value : String) : Bool :=
  match existing with
  | none => true
  | some e => e.Value != value

/-- The result dictionary built by add_value.  The source sets
result[changed] = False at the top of the function and never assigns it
again (the recomputed local variable changed is dropped), so the changed
field of the returned dictionary is the initial False. -/
structure AddValueResult where
  changed : Bool
  key : String
  retrieved : Option (Nat × Option KVEntry)
deriving DecidableEq, Repr

/-- Embedding of add_value: read the key, compute whether the stored value
differs, conditionally issue kv.put (with the cas and flags parameters)
unless in check mode, optionally re-read the key for the result.  Returns
the result dictionary, the backend state afterwards, and whether kv.put was
invoked (the instrumented mutating-call flag). -/
def add_value (st : ConsulState) (p : ConsulParams)
    (override_key override_value : Option String) :
    AddValueResult × ConsulState × Bool :=
  let key := pyOr override_key p.key
  let value := pyOr override_value p.value
  let existing := st.lookup key
  let changed := pyChanged existing value
  let putStep : Bool × ConsulState × Bool :=
    if changed && !p.check_mode then
      let pr := kv_put st key value p.cas p.flags
      (pr.1, pr.2, true)
    else
      (changed, st, false)
  let retrieved :=
    if p.retrieve then some (putStep.2.1.index, putStep.2.1.lookup key) else none
  ({ changed := false, key := key, retrieved := retrieved }, putStep.2.1, putStep.2.2)

/-- How a consul_kv module run ends: exit_json with a changed flag and the
add_value result, or fail_json with a message. -/
inductive ConsulOutcome where
  | exitJson (changed : Bool) (result : AddValueResult)
  | failJson (msg : String)
deriving DecidableEq, Repr

/-- Whether the module run ended in fail_json. -/
def ConsulOutcome.isFail : ConsulOutcome → Bool
  | ConsulOutcome.failJson _ => true
  | ConsulOutcome.exitJson _ _ => false

/-- Embedding of the state=present, non-json branch of execute: run
add_value and exit_json with changed=result[changed] and the result. -/
def execute_present (st : ConsulState) (p : ConsulParams) :
    ConsulOutcome × ConsulState :=
  let r := add_value st p none none
  (ConsulOutcome.exitJson r.1.changed r.1, r.2.1)

/-- The exit_json payload of remove_value: the changed flag, the index and
data observed by the kv.get issued before any deletion, and the key. -/
structure RemoveOutcome where
  changed : Bool
  index : Nat
  key : String
  data : Option GotValue
deriving DecidableEq, Repr

/-- Embedding of remove_value: read the key (with the recurse parameter),
set changed when something was there, delete unless in check mode, and
exit_json with the index and data of the read taken before the deletion. -/
def remove_value (st : ConsulState) (p : ConsulParams) :
    RemoveOutcome × ConsulState :=
  let got := consul_get st p.key p.recurse
  let changed := got.2.isSome
  let newSt := if changed && !p.check_mode then kv_delete st p.key p.recurse else st
  ({ changed := changed, index := got.1, key := p.key, data := got.2 }, newSt)

/-- How the lock function ends: exit_json, or a python exception escaping
the function (modelled with the message the interpreter would produce). -/
inductive LockOutcome where
  | exitJson (changed : Bool) (index : Nat) (key : String)
  | raised (msg : String)
deriving DecidableEq, Repr

/-- Embedding of lock.  With a falsy session the source calls module.fail,
a method AnsibleModule does not define, so an AttributeError is raised.
With a session supplied, both the acquire and the release branch evaluate
consul_api.kv.put, but no name consul_api is bound in the function or at
module scope (get_consul_api is never called here), so the interpreter
raises NameError before any write can be issued; the put call and the
exit_json line (which reads a likewise-unbound name index) are unreachable. -/
def lock (p : ConsulParams) (state : String) : LockOutcome :=
  if p.session.getD "" = "" then
    LockOutcome.raised "AnsibleModule object has no attribute fail"
  else
    match state with
    | _ => LockOutcome.raised "name consul_api is not defined"

mutual
/-- A JSON value as far as convert_dictionary inspects it: a nested object
(a python dict) or a scalar leaf (anything that is not a dict; rendered
here as its string payload). -/
inductive JVal where
  | leaf (s : String)
  | obj (o : JObj)
deriving DecidableEq, Repr
inductive JObj where
  | nil
  | cons (k : String) (v : JVal) (rest : JObj)
deriving DecidableEq, Repr
end

/-- Python dict item assignment d[k] = v: replace in place when the key is
present, otherwise append. -/
def dictInsert (d : List (String × String)) (k v : String) :
    List (String × String) :=
  if d.any (fun kv => kv.1 == k) then
    d.map (fun kv => if kv.1 == k then (k, v) else kv)
  else
    d ++ [(k, v)]

/-- Python dict.update: insert every item of the second dict into the first. -/
def dictUpdate (d d2 : List (String × String)) : List (String × String) :=
  d2.foldl (fun acc kv => dictInsert acc kv.1 kv.2) d

mutual
/-- Loop of convert_dictionary over the items of the input dict,
accumulating the flattened dict. -/
def convertObj : JObj → String → List (String × String) → List (String × String)
  | JObj.nil, _, acc => acc
  | JObj.cons k v rest, path, acc => convertObj rest path (convertItem k v path acc)

def convertItem (k : String) (v : JVal) (path : String)
    (acc : List (String × String)) : List (String × String) :=
  match v with
  | JVal.leaf s => dictInsert acc (path ++ k) s
  | JVal.obj o => dictUpdate acc (convertObj o (path ++ k ++ "/") [])
end

/-- Embedding of convert_dictionary: flatten a nested dict into one entry
per leaf whose key is the slash-joined path of the nested keys. -/
def convert_dictionary (input_dict : JObj) (path : String) :
    List (String × String) :=
  convertObj input_dict path []

/-- Embedding of import_values (after the json document has been parsed by
the surrounding code): flatten the document, call add_value for each flat
key/value pair threading the backend state, collect the per-key results,
and accumulate the changed flag from each result dictionary. -/
def import_values (st : ConsulState) (p : ConsulParams) (key_values : JObj) :
    (Bool × List AddValueResult) × ConsulState :=
  let updated_dictionary := convert_dictionary key_values ""
  updated_dictionary.foldl
    (fun acc kv =>
      let r := add_value acc.2 p (some kv.1) (some kv.2)
      ((if r.1.changed then r.1.changed else acc.1.1, acc.1.2 ++ [r.1]), r.2.1))
    ((false, []), st)

/-- The request parameters of a CreateVpcEndpoint call that determine the
endpoint (the params dict built by create_vpc_endpoint, minus ClientToken
and DryRun): semantic identity of an endpoint is equality of these fields. -/
structure EndpointSpecRec where
  VpcId : String
  ServiceName : String
  RouteTableIds : List String
  PolicyDocument : Option String
deriving DecidableEq, Repr

/-- An endpoint resource as described by the EC2 API (the fields the module
reads: its id, its defining spec, and its lifecycle State). -/
structure Endpoint where
  VpcEndpointId : String
  spec : EndpointSpecRec
  State : String
deriving DecidableEq, Repr

/-- State of the EC2 backend: the live endpoints, the idempotency-token
registry (token, the spec it was used with, the endpoint id it produced),
a counter for fresh ids, and an instrumentation counter of mutating calls
actually performed (never bumped by a DryRun call). -/
structure Ec2State where
  endpoints : List Endpoint
  tokens : List (String × EndpointSpecRec × String)
  nextId : Nat
  mutCount : Nat
deriving DecidableEq, Repr

/-- The error classes of botocore ClientError that the module dispatches on
by substring-matching e.message, plus a catch-all. -/
inductive AwsErr where
  | dryRunOperation
  | idempotentParameterMismatch (msg : String)
  | other (msg : String)
deriving DecidableEq, Repr

/-- The str(e) rendering of a ClientError, used for fail_json messages. -/
def errMsg : AwsErr → String
  | AwsErr.dryRunOperation =>
      "An error occurred (DryRunOperation): Request would have succeeded, but DryRun flag is set."
  | AwsErr.idempotentParameterMismatch m => m
  | AwsErr.other m => m

/-- The message of the IdempotentParameterMismatch error the backend raises
when a client token is reused with different request parameters. -/
def idemMsg : String :=
  "An error occurred (IdempotentParameterMismatch) when calling the CreateVpcEndpoint operation"

/-- Backend model of client.create_vpc_endpoint, per the documented AWS
semantics: with DryRun set it validates only and raises DryRunOperation
(no mutation); a client token already used with the same request
parameters returns the endpoint created by the first use (no mutation);
the same token with different parameters raises
IdempotentParameterMismatch; otherwise a fresh pending endpoint is created
and the token recorded. -/
def aws_create (st : Ec2State) (spec : EndpointSpecRec) (token : String)
    (dryRun : Bool) : Except AwsErr Endpoint × Ec2State :=
  if dryRun then
    (Except.error AwsErr.dryRunOperation, st)
  else
    match st.tokens.find? (fun t => t.1 == token) with
    | some t =>
      if t.2.1 = spec then
        match st.endpoints.find? (fun e => e.VpcEndpointId == t.2.2) with
        | some ep => (Except.ok ep, st)
        | none => (Except.ok { VpcEndpointId := t.2.2, spec := t.2.1, State := "deleted" }, st)
      else
        (Except.error (AwsErr.idempotentParameterMismatch idemMsg), st)
    | none =>
      let eid := "vpce-" ++ toString st.nextId
      let ep : Endpoint := { VpcEndpointId := eid, spec := spec, State := "pending" }
      (Except.ok ep,
       { endpoints := ep :: st.endpoints,
         tokens := (token, spec, eid) :: st.tokens,
         nextId := st.nextId + 1,
         mutCount := st.mutCount + 1 })

/-- Backend model of client.delete_vpc_endpoints, per the documented AWS
semantics: with DryRun set it validates only and raises DryRunOperation
(no mutation); otherwise it deletes the endpoints it finds and returns the
Unsuccessful list naming the ids it could not delete (an id that does not
exist is reported there, not raised). -/
def aws_delete (st : Ec2State) (ids : List String) (dryRun : Bool) :
    Except AwsErr (List String) × Ec2State :=
  if dryRun then
    (Except.error AwsErr.dryRunOperation, st)
  else
    let notFound := ids.filter (fun i => !(st.endpoints.any (fun e => e.VpcEndpointId == i)))
    (Except.ok notFound,
     { endpoints := st.endpoints.filter (fun e => !(ids.contains e.VpcEndpointId)),
       tokens := st.tokens,
       nextId := st.nextId,
       mutCount := st.mutCount + 1 })

/-- Loop of wait_for_status: fuel counts the remaining retries out of
max_retries, x numbers the poll (the argument of the fetch sequence), and
the accumulator holds the python variable resource, unbound before the
first successful fetch.  Running out of retries with the variable still
unbound is the NameError the interpreter raises at the return statement;
a ClientError from a fetch is fail_json with str(e). -/
def waitLoop (fetch : Nat → Except AwsErr Endpoint) (status : String) :
    Nat → Nat → Option Endpoint → Except String (Bool × Endpoint)
  | 0, _, last =>
    match last with
    | some r => Except.ok (false, r)
    | none => Except.error "name resource is not defined"
  | n + 1, x, _ =>
    match fetch x with
    | Except.error e => Except.error (errMsg e)
    | Except.ok resource =>
      if resource.State == status then Except.ok (true, resource)
      else waitLoop fetch status n (x + 1) (some resource)

/-- Embedding of wait_for_status: poll the resource (one fetch per
15-second polling increment, so wait_timeout integer-divided by 15 polls
in total), stopping early when the fetched State equals the target
status.  Returns the achieved flag together with the last fetched
resource. -/
def wait_for_status (fetch : Nat → Except AwsErr Endpoint) (wait_timeout : Nat)
    (status : String) : Except String (Bool × Endpoint) :=
  let polling_increment_secs := 15
  let max_retries := wait_timeout / polling_increment_secs
  waitLoop fetch status max_retries 0 none

/-- The module parameters read by create_vpc_endpoint (policy already
loaded by the surrounding json/file handling), plus the check_mode flag. -/
structure CreateParams where
  vpc_id : String
  service : String
  token : String
  policy : Option String
  route_table_ids : List String
  wait : Bool
  wait_timeout : Nat
  check_mode : Bool
deriving DecidableEq, Repr

/-- The params dict built by create_vpc_endpoint from the module
parameters (ClientToken and DryRun aside). -/
def specOfParams (p : CreateParams) : EndpointSpecRec :=
  { VpcId := p.vpc_id, ServiceName := p.service,
    RouteTableIds := p.route_table_ids, PolicyDocument := p.policy }

/-- The result payload of create_vpc_endpoint: the endpoint dictionary, or
the synthesized check-mode message. -/
inductive CreatePayload where
  | endpoint (e : Endpoint)
  | msg (s : String)
deriving DecidableEq, Repr

/-- Embedding of create_vpc_endpoint: issue the create call (DryRun set to
check_mode); on success optionally wait for the available status, failing
when the wait gives up; on ClientError, substring-dispatch on the message:
an IdempotentParameterMismatch becomes fail_json (token is not unique), a
DryRunOperation becomes changed=True with the synthesized message, and
anything else is fail_json with str(e).  The fetch argument supplies the
observations of the polls performed by the wait branch. -/
def create_vpc_endpoint (st : Ec2State) (p : CreateParams)
    (fetch : Nat → Except AwsErr Endpoint) :
    Except String (Bool × CreatePayload) × Ec2State :=
  match aws_create st (specOfParams p) p.token p.check_mode with
  | (Except.ok ep, st2) =>
    if p.wait && !p.check_mode then
      match wait_for_status fetch p.wait_timeout "available" with
      | Except.ok (true, r) => (Except.ok (true, CreatePayload.endpoint r), st2)
      | Except.ok (false, _) =>
        (Except.error "Error waiting for vpc endpoint to become available - please check the AWS console", st2)
      | Except.error m => (Except.error m, st2)
    else
      (Except.ok (true, CreatePayload.endpoint ep), st2)
  | (Except.error AwsErr.dryRunOperation, st2) =>
    (Except.ok (true, CreatePayload.msg "Would have created VPC Endpoint if not in check mode"), st2)
  | (Except.error (AwsErr.idempotentParameterMismatch m), st2) =>
    (Except.error ("token is not unique, VPC Endpoint does not support update" ++ m), st2)
  | (Except.error (AwsErr.other m), st2) => (Except.error m, st2)

/-- The module parameters read by setup_removal (the endpoint ids already
wrapped into a list by the isinstance branch; an empty list is the falsy
missing parameter), plus the check_mode flag. -/
structure RemovalParams where
  vpc_endpoint_id : List String
  check_mode : Bool
deriving DecidableEq, Repr

/-- The result payload of setup_removal: the Unsuccessful list of the
delete call, or the synthesized check-mode message. -/
inductive RemPayload where
  | unsuccessful (ids : List String)
  | msg (s : String)
deriving DecidableEq, Repr

/-- Embedding of setup_removal: require an endpoint id, issue the delete
call (DryRun set to check_mode); outside check mode a non-empty
Unsuccessful list is fail_json with that list as the message; a
DryRunOperation ClientError becomes changed=True with the synthesized
message.  Note the source never sets changed on the successful delete
path, so a real deletion is reported with the initial changed=False. -/
def setup_removal (st : Ec2State) (p : RemovalParams) :
    Except String (Bool × RemPayload) × Ec2State :=
  if p.vpc_endpoint_id = [] then
    (Except.error "vpc_endpoint_id is a required paramater", st)
  else
    match aws_delete st p.vpc_endpoint_id p.check_mode with
    | (Except.ok unsucc, st2) =>
      if !p.check_mode && !unsucc.isEmpty then
        (Except.error (String.intercalate ", " unsucc), st2)
      else
        (Except.ok (false, RemPayload.unsuccessful unsucc), st2)
    | (Except.error AwsErr.dryRunOperation, st2) =>
      (Except.ok (true, RemPayload.msg "Would have deleted VPC Endpoint if not in check mode"), st2)
    | (Except.error e, st2) => (Except.error (errMsg e), st2)

/-- The bulk-import document of the reference scenario,
the nested dict with a mapped to the dict with b mapped to v1 and c to v2. -/
def docNested : JObj :=
  JObj.cons "a"
    (JVal.obj (JObj.cons "b" (JVal.leaf "v1") (JObj.cons "c" (JVal.leaf "v2") JObj.nil)))
    JObj.nil

/-- A Consul store where key a/b currently holds v0 (differing from the
desired v1 of the bulk-import document) and a/c is absent. -/
def stImport : ConsulState :=
  { store := [("a/b", { Value := "v0", ModifyIndex := 1, Flags := 0 })], index := 1 }

/-- Module parameters of a json bulk-import run (key and value unused,
no cas, not in check mode, no retrieve). -/
def pImport : ConsulParams :=
  { key := "", value := "", cas := none, flags := none, session := none,
    retrieve := false, recurse := false, check_mode := false }

/-- A Consul store holding somekey with value v0 at ModifyIndex 5: the
shared observation both racing writers plan from. -/
def stCas : ConsulState :=
  { store := [("somekey", { Value := "v0", ModifyIndex := 5, Flags := 0 })], index := 5 }

/-- First writer: put v1 at somekey conditional on the observed index 5. -/
def pCasFirst : ConsulParams :=
  { key := "somekey", value := "v1", cas := some 5, flags := none, session := none,
    retrieve := true, recurse := false, check_mode := false }

/-- Second writer: put v2 at somekey, with the same stale casIndex 5. -/
def pCasSecond : ConsulParams := { pCasFirst with value := "v2" }

/-- The store after the first conditional write succeeded and bumped the
index of somekey to 6. -/
def stCasBumped : ConsulState :=
  { store := [("somekey", { Value := "v1", ModifyIndex := 6, Flags := 0 })], index := 6 }

/-- Whether an Except value is a success. -/
def exceptOk {e a : Type} : Except e a → Bool
  | Except.ok _ => true
  | Except.error _ => false

/-- The endpoint spec of the reference examples: s3 service in a vpc, one
route table, default policy. -/
def specS3 : EndpointSpecRec :=
  { VpcId := "vpc-12345678", ServiceName := "com.amazonaws.ap-southeast-2.s3",
    RouteTableIds := ["rtb-12345678"], PolicyDocument := none }

/-- The endpoint vpce-1 with spec specS3, still pending. -/
def epPending : Endpoint :=
  { VpcEndpointId := "vpce-1", spec := specS3, State := "pending" }

/-- The endpoint vpce-1 with spec specS3, available. -/
def epAvailable : Endpoint :=
  { VpcEndpointId := "vpce-1", spec := specS3, State := "available" }

/-- An EC2 backend holding the one available endpoint vpce-1. -/
def stEc2One : Ec2State :=
  { endpoints := [epAvailable], tokens := [], nextId := 2, mutCount := 0 }

/-- Module parameters for creating the specS3 endpoint with the reference
token, in check mode. -/
def pCreateChk : CreateParams :=
  { vpc_id := "vpc-12345678", service := "com.amazonaws.ap-southeast-2.s3",
    token := "token-12345678", policy := none, route_table_ids := ["rtb-12345678"],
    wait := false, wait_timeout := 320, check_mode := true }

/-- A fetch sequence that is never consulted by the non-waiting scenarios. -/
def fetchUnused : Nat → Except AwsErr Endpoint :=
  fun _ => Except.error (AwsErr.other "unused")

/-- An EC2 backend where the reference token has already been used to
create the pending endpoint vpce-1 with spec specS3. -/
def stTokenUsed : Ec2State :=
  { endpoints := [epPending], tokens := [("token-12345678", specS3, "vpce-1")],
    nextId := 2, mutCount := 0 }

/-- Module parameters re-issuing the create with the same token and the
identical spec specS3, outside check mode and without waiting. -/
def pTokenSame : CreateParams :=
  { vpc_id := "vpc-12345678", service := "com.amazonaws.ap-southeast-2.s3",
    token := "token-12345678", policy := none, route_table_ids := ["rtb-12345678"],
    wait := false, wait_timeout := 320, check_mode := false }

/-- Module parameters re-using the same token for a different service, so
the desired spec differs from the one the token was used with. -/
def pTokenOther : CreateParams :=
  { pTokenSame with service := "com.amazonaws.ap-southeast-2.ec2" }

/-- A fetch sequence observing pending, pending, then available forever. -/
def fetchPPA : Nat → Except AwsErr Endpoint := fun n =>
  match n with
  | 0 => Except.ok epPending
  | 1 => Except.ok epPending
  | _ => Except.ok epAvailable

/-- A fetch sequence observing pending forever. -/
def fetchPend : Nat → Except AwsErr Endpoint := fun _ => Except.ok epPending

/-- C2: the nested document flattens to exactly the keys a/b and a/c, and the
leaf at a/b differs from the observed v0 and is in fact rewritten to v1 by the
import, yet import_values reports changed=false: add_value never copies its
recomputed changed flag into the result dictionary it returns, so the
convergence never reports changed=true, contradicting the claim (and the
module documentation, which promises changed=true exactly when a value
differed). -/
theorem import_changed_flag_bug :
    convert_dictionary docNested "" = [("a/b", "v1"), ("a/c", "v2")] ∧
    ((import_values stImport pImport docNested).2).lookup "a/b" =
      some { Value := "v1", ModifyIndex := 2, Flags := 0 } ∧
    (import_values stImport pImport docNested).1.1 = false := by
  decide

/-- C3: every lock acquire or release that carries a session raises NameError
before any conditional write can be issued: the lock function evaluates
consul_api.kv.put but no name consul_api is bound anywhere in the module
(get_consul_api is never called in lock), so the request never returns
changed=false and instead surfaces as a module failure. -/
theorem lock_raises_nameerror :
    lock { key := "somekey", value := "somevalue", cas := none, flags := none,
           session := some "session1", retrieve := true, recurse := false,
           check_mode := false } "acquire"
      = LockOutcome.raised "name consul_api is not defined" := by
  decide

/-- C7: with a wait_timeout shorter than one 15-second polling increment the
loop of wait_for_status runs zero times, so the python variable resource is
referenced before assignment at the return statement and the waiter raises
NameError instead of returning a defined (achieved, lastObserved) pair: no
unknown sentinel is ever initialized. -/
theorem waiter_zero_polls_nameerror (fetch : Nat → Except AwsErr Endpoint)
    (status : String) :
    wait_for_status fetch 10 status = Except.error "name resource is not defined" := by
  rfl

/-- C1 counterexample: of two execute calls planned from the same observation
with casIndex=5, the first succeeds and bumps the index to 6, and the second
is rejected by the backend (no overwrite: the state is unchanged) but ends in
a normal exit_json, not in any failure: the module never fails with a
ConcurrentModification error on a lost CAS race, refuting the claim as
stated. -/
theorem cas_race_counterexample :
    (execute_present stCas pCasFirst).2 = stCasBumped ∧
    ConsulOutcome.isFail (execute_present stCasBumped pCasSecond).1 = false ∧
    (execute_present stCasBumped pCasSecond).2 = stCasBumped := by
  decide

/-- C1 amended: a conditional write whose casIndex no longer matches the
ModifyIndex of the key is rejected by the backend, so the stale writer does
not silently overwrite (the backend state is returned unchanged); but the
execute operation then returns a normal exit_json result reporting
changed=false rather than failing with ConcurrentModification. -/
theorem cas_stale_normal_result (st : ConsulState) (p : ConsulParams) (n : Nat)
    (h1 : p.check_mode = false) (h2 : p.cas = some n)
    (h3 : modifyIndexOf st p.key ≠ n)
    (h4 : (st.lookup p.key).map KVEntry.Value ≠ some p.value) :
    (execute_present st p).2 = st ∧
    ConsulOutcome.isFail (execute_present st p).1 = false ∧
    (execute_present st p).1 = ConsulOutcome.exitJson false
      { changed := false, key := p.key,
        retrieved := if p.retrieve then some (st.index, st.lookup p.key) else none } := by
  have hch : pyChanged (st.lookup p.key) p.value = true := by
    cases hx : st.lookup p.key with
    | none => rfl
    | some e =>
      rw [hx] at h4
      simp only [Option.map_some'] at h4
      have hne : e.Value ≠ p.value := fun h => h4 (by rw [h])
      simp [pyChanged, bne_iff_ne, hne]
  have hput : kv_put st p.key p.value p.cas p.flags = (false, st) := by
    rw [h2]
    simp [kv_put, h3]
  simp [execute_present, add_value, pyOr, h1, hch, hput, ConsulOutcome.isFail]

/-- Witness for the amended C1 theorem at the concrete race scenario. -/
theorem cas_stale_normal_result_witness :
    (execute_present stCasBumped pCasSecond).2 = stCasBumped ∧
    ConsulOutcome.isFail (execute_present stCasBumped pCasSecond).1 = false := by
  have h := cas_stale_normal_result stCasBumped pCasSecond 5 rfl rfl (by decide) (by decide)
  exact ⟨h.1, h.2.1⟩

/-- C9: when the observed value at the key equals the desired value, the
convergence is classified as unchanged (the computed delta is false), so
add_value issues no kv.put at all (the mutating-call flag is false and the
backend state is returned untouched) and the result reports changed=false;
only the reads are performed. -/
theorem noop_when_equal (st : ConsulState) (p : ConsulParams) (e : KVEntry)
    (h1 : st.lookup p.key = some e) (h2 : e.Value = p.value) :
    add_value st p none none =
      ({ changed := false, key := p.key,
         retrieved := if p.retrieve then some (st.index, some e) else none }, st, false) := by
  have hch : pyChanged (some e) p.value = false := by
    simp [pyChanged, h2]
  simp [add_value, pyOr, h1, hch]

/-- Witness for the C9 theorem: observed v1 equals desired v1. -/
theorem noop_when_equal_witness :
    add_value stCasBumped pCasFirst none none =
      ({ changed := false, key := "somekey",
         retrieved := some (6, some { Value := "v1", ModifyIndex := 6, Flags := 0 }) },
       stCasBumped, false) := by
  exact noop_when_equal stCasBumped pCasFirst
    { Value := "v1", ModifyIndex := 6, Flags := 0 } (by decide) rfl

/-- Keys removed by a non-recursive kv.delete are no longer found. -/
theorem lookup_kv_delete_self (st : ConsulState) (key : String) :
    (kv_delete st key false).lookup key = none := by
  simp [kv_delete, ConsulState.lookup, List.find?_eq_none, List.mem_filter]

/-- C10: the exit_json payload of remove_value always carries the index and
the data of the kv.get read issued before any deletion: the index is the
pre-deletion global index and the data is the pre-deletion record (absent
when the key did not exist), even in the runs where the key is then actually
deleted from the backend. -/
theorem remove_value_reports_pre_delete (st : ConsulState) (p : ConsulParams) :
    (remove_value st p).1.index = st.index ∧
    (remove_value st p).1.data = (consul_get st p.key p.recurse).2 ∧
    (p.check_mode = false → p.recurse = false → ∀ e, st.lookup p.key = some e →
      (remove_value st p).1.data = some (GotValue.single e) ∧
      ((remove_value st p).2).lookup p.key = none) := by
  refine ⟨?_, rfl, ?_⟩
  · cases hr : p.recurse <;> simp [remove_value, consul_get, hr]
  · intro hcm hr e he
    constructor
    · simp [remove_value, consul_get, hr, he]
    · simp [remove_value, consul_get, hr, he, hcm, lookup_kv_delete_self]

/-- Witness for the C10 theorem: removing the present key somekey reports
the pre-deletion index 6 and value v1 while the key is gone afterwards. -/
theorem remove_value_reports_pre_delete_witness :
    (remove_value stCasBumped pCasFirst).1.index = 6 ∧
    (remove_value stCasBumped pCasFirst).1.data =
      some (GotValue.single { Value := "v1", ModifyIndex := 6, Flags := 0 }) ∧
    ((remove_value stCasBumped pCasFirst).2).lookup "somekey" = none := by
  have h := remove_value_reports_pre_delete stCasBumped pCasFirst
  have h3 := h.2.2 rfl rfl { Value := "v1", ModifyIndex := 6, Flags := 0 } (by decide)
  exact ⟨h.1, h3.1, h3.2⟩

/-- C4 counterexample: deleting an already-absent endpoint id through
setup_removal does not return changed=false: the backend reports the
unknown id in the Unsuccessful list, and outside check mode the module
turns any non-empty Unsuccessful list into fail_json, so the removal of an
absent resource is surfaced as an error, refuting the claim for the EC2
endpoint path. -/
theorem setup_removal_absent_fails :
    (setup_removal { endpoints := [], tokens := [], nextId := 0, mutCount := 0 }
        { vpc_endpoint_id := ["vpce-1"], check_mode := false }).1
      = Except.error "vpce-1" := by
  rfl

/-- C4 amended: deletion is idempotent for the Consul KV path: remove_value
on an already-absent key reports changed=false with absent data and leaves
the backend untouched, as a normal result.  For the EC2 endpoint path,
setup_removal returns a normal changed=false result only when the backend
reports nothing in the Unsuccessful list (every requested id existed); an
already-absent endpoint id lands in Unsuccessful and becomes a module
failure instead (see the counterexample). -/
theorem delete_idempotent_amended (stc : ConsulState) (p : ConsulParams)
    (ste : Ec2State) (rp : RemovalParams)
    (h1 : stc.lookup p.key = none) (h2 : p.recurse = false)
    (h3 : rp.check_mode = false) (h4 : rp.vpc_endpoint_id ≠ [])
    (h5 : ∀ i ∈ rp.vpc_endpoint_id,
      ste.endpoints.any (fun e => e.VpcEndpointId == i) = true) :
    ((remove_value stc p).1.changed = false ∧ (remove_value stc p).1.data = none ∧
      (remove_value stc p).2 = stc) ∧
    (setup_removal ste rp).1 = Except.ok (false, RemPayload.unsuccessful []) := by
  constructor
  · simp [remove_value, consul_get, h2, h1]
  · have hnf : rp.vpc_endpoint_id.filter
        (fun i => !(ste.endpoints.any (fun e => e.VpcEndpointId == i))) = [] := by
      rw [List.filter_eq_nil_iff]
      intro a ha
      simp [h5 a ha]
    simp [setup_removal, aws_delete, h3, h4, hnf]

/-- Witness for the amended C4 theorem: an absent Consul key and a present
endpoint id. -/
theorem delete_idempotent_amended_witness :
    (remove_value { store := [], index := 0 } pCasFirst).1.changed = false ∧
    (setup_removal stEc2One { vpc_endpoint_id := ["vpce-1"], check_mode := false }).1
      = Except.ok (false, RemPayload.unsuccessful []) := by
  have h := delete_idempotent_amended { store := [], index := 0 } pCasFirst stEc2One
    { vpc_endpoint_id := ["vpce-1"], check_mode := false } rfl rfl rfl (by decide)
    (by intro i hi; simp at hi; subst hi; decide)
  exact ⟨h.1.1, h.2⟩

/-- C5: a Create executed in check mode sends only the DryRun validation
call: the backend raises DryRunOperation without mutating anything, and the
module reports the projected changed=true with the synthesized message while
the backend state (including its mutating-call counter) is returned exactly
as it was; likewise for the removal action in check mode, so no action ever
performs its mutating call in dry-run mode. -/
theorem dryrun_projects_change_without_mutation (st : Ec2State) (p : CreateParams)
    (fetch : Nat → Except AwsErr Endpoint) (rp : RemovalParams)
    (h1 : p.check_mode = true) (h2 : rp.check_mode = true)
    (h3 : rp.vpc_endpoint_id ≠ []) :
    create_vpc_endpoint st p fetch =
      (Except.ok (true, CreatePayload.msg "Would have created VPC Endpoint if not in check mode"), st) ∧
    setup_removal st rp =
      (Except.ok (true, RemPayload.msg "Would have deleted VPC Endpoint if not in check mode"), st) := by
  constructor
  · simp [create_vpc_endpoint, aws_create, h1]
  · simp [setup_removal, aws_delete, h2, h3]

/-- Witness for the C5 theorem: a check-mode create and a check-mode removal
against the one-endpoint backend leave it untouched. -/
theorem dryrun_projects_change_without_mutation_witness :
    create_vpc_endpoint stEc2One pCreateChk fetchUnused =
      (Except.ok (true, CreatePayload.msg "Would have created VPC Endpoint if not in check mode"), stEc2One) ∧
    setup_removal stEc2One { vpc_endpoint_id := ["vpce-1"], check_mode := true } =
      (Except.ok (true, RemPayload.msg "Would have deleted VPC Endpoint if not in check mode"), stEc2One) := by
  exact dryrun_projects_change_without_mutation stEc2One pCreateChk fetchUnused
    { vpc_endpoint_id := ["vpce-1"], check_mode := true } rfl rfl (by decide)

/-- C8: when the create call carries a client token the backend has already
seen, the operation succeeds only if the desired spec is semantically
identical to the one the token was used with (the backend then returns the
existing resource and the module reports success without mutating
anything); a reused token with a different spec makes the backend raise
IdempotentParameterMismatch, which the module turns into the fail_json
token-is-not-unique error, so a non-identical reuse always fails. -/
theorem idempotency_token_reuse (st : Ec2State) (p : CreateParams)
    (fetch : Nat → Except AwsErr Endpoint) (tspec : EndpointSpecRec) (eid : String)
    (h1 : p.check_mode = false)
    (h2 : st.tokens.find? (fun t => t.1 == p.token) = some (p.token, tspec, eid)) :
    (tspec ≠ specOfParams p →
      (create_vpc_endpoint st p fetch).1 =
        Except.error ("token is not unique, VPC Endpoint does not support update" ++ idemMsg)) ∧
    (exceptOk (create_vpc_endpoint st p fetch).1 = true → tspec = specOfParams p) ∧
    (tspec = specOfParams p → p.wait = false →
      exceptOk (create_vpc_endpoint st p fetch).1 = true ∧
      (create_vpc_endpoint st p fetch).2 = st) := by
  have hfail : tspec ≠ specOfParams p →
      (create_vpc_endpoint st p fetch).1 =
        Except.error ("token is not unique, VPC Endpoint does not support update" ++ idemMsg) := by
    intro hne
    simp [create_vpc_endpoint, aws_create, h1, h2, hne]
  refine ⟨hfail, ?_, ?_⟩
  · intro hok
    by_contra hne
    rw [hfail hne] at hok
    simp [exceptOk] at hok
  · intro heq hw
    cases hf : st.endpoints.find? (fun e => e.VpcEndpointId == eid) with
    | none => simp [create_vpc_endpoint, aws_create, h1, h2, heq, hw, hf, exceptOk]
    | some ep => simp [create_vpc_endpoint, aws_create, h1, h2, heq, hw, hf, exceptOk]

/-- Witness for the C8 theorem: the registered token with a mismatching and
with an identical spec. -/
theorem idempotency_token_reuse_witness :
    (create_vpc_endpoint stTokenUsed pTokenOther fetchUnused).1 =
      Except.error ("token is not unique, VPC Endpoint does not support update" ++ idemMsg) ∧
    exceptOk (create_vpc_endpoint stTokenUsed pTokenSame fetchUnused).1 = true ∧
    (create_vpc_endpoint stTokenUsed pTokenSame fetchUnused).2 = stTokenUsed := by
  refine ⟨?_, ?_⟩
  · exact (idempotency_token_reuse stTokenUsed pTokenOther fetchUnused specS3 "vpce-1"
      rfl (by decide)).1 (by decide)
  · exact (idempotency_token_reuse stTokenUsed pTokenSame fetchUnused specS3 "vpce-1"
      rfl (by decide)).2.2 (by decide) rfl

/-- If the i-th poll (counting from the current position x) is the first
one whose State equals the target, the loop stops there with achieved=true
and that observation, for any remaining fuel larger than i. -/
theorem waitLoop_hits (fetch : Nat → Except AwsErr Endpoint) (status : String) :
    ∀ (i n x : Nat) (last : Option Endpoint) (obs : Endpoint),
      i < n → fetch (x + i) = Except.ok obs → obs.State = status →
      (∀ j, j < i → ∃ o, fetch (x + j) = Except.ok o ∧ o.State ≠ status) →
      waitLoop fetch status n x last = Except.ok (true, obs) := by
  intro i
  induction i with
  | zero =>
    intro n x last obs hn hf hs _
    cases n with
    | zero => omega
    | succ n =>
      rw [Nat.add_zero] at hf
      simp [waitLoop, hf, hs]
  | succ i ih =>
    intro n x last obs hn hf hs hprev
    obtain ⟨o0, ho0, hno⟩ := hprev 0 (Nat.succ_pos i)
    rw [Nat.add_zero] at ho0
    cases n with
    | zero => omega
    | succ n =>
      have hstep : waitLoop fetch status (n + 1) x last
          = waitLoop fetch status n (x + 1) (some o0) := by
        simp [waitLoop, ho0, beq_iff_eq, hno]
      rw [hstep]
      refine ih n (x + 1) (some o0) obs (by omega) ?_ hs ?_
      · rw [show x + 1 + i = x + (i + 1) from by omega]
        exact hf
      · intro j hj
        rw [show x + 1 + j = x + (j + 1) from by omega]
        exact hprev (j + 1) (by omega)

/-- If every poll within the fuel budget comes back with a State other than
the target, the loop exhausts its fuel and returns achieved=false together
with the last observation fetched. -/
theorem waitLoop_timesOut (fetch : Nat → Except AwsErr Endpoint) (status : String) :
    ∀ (n x : Nat) (last : Option Endpoint) (lastObs : Endpoint),
      1 ≤ n →
      (∀ j, j < n → ∃ o, fetch (x + j) = Except.ok o ∧ o.State ≠ status) →
      fetch (x + (n - 1)) = Except.ok lastObs →
      waitLoop fetch status n x last = Except.ok (false, lastObs) := by
  intro n
  induction n with
  | zero => intro x last lastObs h; omega
  | succ n ih =>
    intro x last lastObs _ hall hlast
    obtain ⟨o0, ho0, hno⟩ := hall 0 (Nat.succ_pos n)
    rw [Nat.add_zero] at ho0
    have hstep : waitLoop fetch status (n + 1) x last
        = waitLoop fetch status n (x + 1) (some o0) := by
      simp [waitLoop, ho0, beq_iff_eq, hno]
    rw [hstep]
    cases n with
    | zero =>
      simp only [Nat.add_sub_cancel] at hlast
      have heq : o0 = lastObs := by
        have h := ho0.symm.trans hlast
        exact Except.ok.inj h
      subst heq
      simp [waitLoop]
    | succ m =>
      refine ih (x + 1) (some o0) lastObs (by omega) ?_ ?_
      · intro j hj
        rw [show x + 1 + j = x + (j + 1) from by omega]
        exact hall (j + 1) (by omega)
      · rw [show x + 1 + (m + 1 - 1) = x + (m + 1 + 1 - 1) from by omega]
        exact hlast

/-- C6: wait_for_status polls the resource once per fixed 15-second
increment (wait_timeout divided by 15 polls in total).  Whenever some poll
within that budget observes the target status and every earlier poll
observed some non-target status, the waiter returns achieved=true together
with the observation carrying the target status; and whenever every poll in
the budget observes a non-target status, the waiter returns achieved=false
together with the last observation. -/
theorem wait_for_status_spec :
    (∀ (fetch : Nat → Except AwsErr Endpoint) (timeout i : Nat) (status : String)
        (obs : Endpoint),
      i < timeout / 15 → fetch i = Except.ok obs → obs.State = status →
      (∀ j, j < i → ∃ o, fetch j = Except.ok o ∧ o.State ≠ status) →
      wait_for_status fetch timeout status = Except.ok (true, obs)) ∧
    (∀ (fetch : Nat → Except AwsErr Endpoint) (timeout : Nat) (status : String)
        (lastObs : Endpoint),
      1 ≤ timeout / 15 →
      (∀ j, j < timeout / 15 → ∃ o, fetch j = Except.ok o ∧ o.State ≠ status) →
      fetch (timeout / 15 - 1) = Except.ok lastObs →
      wait_for_status fetch timeout status = Except.ok (false, lastObs)) := by
  constructor
  · intro fetch timeout i status obs hlt hf hs hprev
    have h := waitLoop_hits fetch status i (timeout / 15) 0 none obs hlt
      (by simpa using hf) hs (by intro j hj; simpa using hprev j hj)
    simpa [wait_for_status] using h
  · intro fetch timeout status lastObs h1 hall hlast
    have h := waitLoop_timesOut fetch status (timeout / 15) 0 none lastObs h1
      (by intro j hj; simpa using hall j hj) (by simpa using hlast)
    simpa [wait_for_status] using h

/-- Witness for the C6 theorem: the pending, pending, available sequence
with a 60-second budget achieves available at the third poll, and the
always-pending sequence with a 45-second budget times out on the last
pending observation. -/
theorem wait_for_status_spec_witness :
    wait_for_status fetchPPA 60 "available" = Except.ok (true, epAvailable) ∧
    wait_for_status fetchPend 45 "available" = Except.ok (false, epPending) := by
  constructor
  · refine wait_for_status_spec.1 fetchPPA 60 2 "available" epAvailable (by decide) rfl rfl ?_
    intro j hj
    interval_cases j
    · exact ⟨epPending, rfl, by decide⟩
    · exact ⟨epPending, rfl, by decide⟩
  · refine wait_for_status_spec.2 fetchPend 45 "available" epPending (by decide) ?_ rfl
    intro j hj
    exact ⟨epPending, rfl, by decide⟩

